import Mathlib

/-!
Verification of the command executor in process.c.

The executor is embedded shallowly: the process-wide state (environment,
current working directory, directory stack, pending terminated children,
diagnostic and standard output, fork and wait traces) is a `World` record
threaded through pure Lean functions that mirror the C functions
`process`, `execute_simple`, `handle_builtin`, `update_status`,
`reap_zombies`, `sigchld_handler`, `pushd_stack`, `popd_stack` and
`print_dir_stack`.  Operating-system nondeterminism (results of `pipe`,
`fork` and `waitpid`, and the wait status of a child that ran `execvp`)
is supplied by a list of oracle events consumed in call order; the
filesystem behaviour of `chdir` is a function parameter `fs` mapping the
current directory and the target argument to either an errno or the new
current directory.  A child created by `fork` that re-enters `process`
(pipe branches, backgrounded commands, subshells) is modelled by running
the interpreter recursively on a copy of the world; its state changes are
discarded, matching the separate address space, and only its exit status
(truncated to 8 bits by `exit`) is visible to the parent through the wait
status encoding.  A child that runs `execvp` is summarised entirely by
the raw wait status its oracle event carries.
-/

namespace ShellExec

/-- Command node discriminator, mirroring the `type` field of the C `CMD`
struct: SIMPLE, PIPE, SEP_AND, SEP_OR, SEP_END, SEP_BG, SUBCMD, and the
NONE and ERROR codes that fall into the default branch of the dispatcher. -/
inductive CmdType where
  | SIMPLE
  | PIPE
  | SEP_AND
  | SEP_OR
  | SEP_END
  | SEP_BG
  | SUBCMD
  | NONE
  | ERROR
deriving DecidableEq

/-- Redirection kinds, mirroring the C enumeration. -/
inductive RedirType where
  | NONE
  | RED_IN
  | RED_IN_HERE
  | RED_OUT
  | RED_OUT_APP
  | RED_OUT_ERR
deriving DecidableEq

/-- A possibly-null pointer to a command node.  The C code passes `CMD *`
everywhere and checks for NULL at the entry of `process`; `null` models
the NULL pointer and `mk` models a node with the fields of the C struct:
type, argv (argc is its length), the local variable bindings
(locVar and locVal zipped, nLocal is the length), fromType, fromFile,
toType, toFile, errType, left, right. -/
inductive CMD where
  | null : CMD
  | mk : CmdType → List String → List (String × String) →
      RedirType → String → RedirType → String → RedirType →
      CMD → CMD → CMD
deriving DecidableEq

/-- Oracle events recording the outcomes of the operating-system calls the
executor makes, consumed in call order.  A `forkEv` carries the result of
`fork` (errno on failure, the child pid on success) together with the
oracle stream the forked child consumes when it re-enters `process`.  A
`pipeEv` carries `some errno` when `pipe` fails.  A `waitEv` is the
blocking `waitpid` on a child that ran `execvp`: errno on failure, the raw
wait status otherwise.  A `waitREv` is the blocking `waitpid` on a child
modelled recursively: `some errno` on failure, its status otherwise comes
from the recursive run. -/
inductive OSEv where
  | forkEv : Except Nat Nat → List OSEv → OSEv
  | pipeEv : Option Nat → OSEv
  | waitEv : Except Nat Nat → OSEv
  | waitREv : Option Nat → OSEv

/-- The executor-visible state of the process and its observable traces:
environment, current working directory, the pushd and popd stack
(the global `dir_stack`), terminated children not yet reaped together
with their raw wait statuses, standard output lines, diagnostic (stderr)
lines, pids forked by this process, pids blockingly waited for, and the
remaining oracle stream. -/
structure World where
  env : List (String × String)
  cwd : String
  dirStack : List String
  zombies : List (Nat × Nat)
  out : List String
  diag : List String
  forks : List Nat
  waits : List Nat
  oracle : List OSEv

/-- Filesystem behaviour of `chdir`: given the current directory and the
target argument, either an errno or the resulting current directory. -/
def FS : Type := String → String → Except Nat String

/-- `getenv`: first binding of the name in the environment list. -/
def envGet : List (String × String) → String → Option String
  | [], _ => none
  | (k0, v0) :: rest, k => if k0 = k then some v0 else envGet rest k

/-- `setenv` with overwrite: replace the first binding or append. -/
def envSet : List (String × String) → String → String → List (String × String)
  | [], k, v => [(k, v)]
  | (k0, v0) :: rest, k, v =>
      if k0 = k then (k, v) :: rest else (k0, v0) :: envSet rest k v

/-- The `setenv` loop over the locVar and locVal arrays of a node. -/
def applyLocals (ls : List (String × String)) (e : List (String × String)) :
    List (String × String) :=
  ls.foldl (fun acc kv => envSet acc kv.1 kv.2) e

/-- Append one diagnostic (stderr) line; `perror(tag)` is modelled as the
line holding its tag. -/
def addDiag (w : World) (line : String) : World :=
  {w with diag := w.diag ++ [line]}

/-- WIFEXITED of a raw wait status: the low seven bits are zero. -/
def WIFEXITED (ws : Nat) : Bool := ws % 128 == 0

/-- WEXITSTATUS of a raw wait status: bits eight to fifteen. -/
def WEXITSTATUS (ws : Nat) : Nat := ws / 256 % 256

/-- WTERMSIG of a raw wait status: the low seven bits. -/
def WTERMSIG (ws : Nat) : Nat := ws % 128

/-- WIFSIGNALED of a raw wait status: the termination signal field is
neither zero (normal exit) nor 0x7f (stopped). -/
def WIFSIGNALED (ws : Nat) : Bool := ws % 128 != 0 && ws % 128 != 127

/-- The raw wait status of a child that called `exit(code)`:
the exit code, truncated to eight bits, in bits eight to fifteen. -/
def exitedStatus (code : Nat) : Nat := 256 * (code % 256)

/-- The status translation the source performs after every blocking wait:
`WIFEXITED(status) ? WEXITSTATUS(status) : 128 + WTERMSIG(status)`. -/
def translateStatus (ws : Nat) : Nat :=
  if WIFEXITED ws then WEXITSTATUS ws else 128 + WTERMSIG ws

/-- Consume the oracle event of one `fork` call; on success the child pid
and the oracle stream of the forked child.  A missing or mismatched event
defaults to a successful fork with pid 0 and an empty child stream. -/
def popFork (w : World) : Except Nat (Nat × List OSEv) × World :=
  match w.oracle with
  | OSEv.forkEv (Except.ok pid) co :: rest =>
      (Except.ok (pid, co), {w with oracle := rest})
  | OSEv.forkEv (Except.error e) _ :: rest =>
      (Except.error e, {w with oracle := rest})
  | _ :: rest => (Except.ok (0, []), {w with oracle := rest})
  | [] => (Except.ok (0, []), w)

/-- Consume the oracle event of one `pipe` call; `some errno` on failure. -/
def popPipe (w : World) : Option Nat × World :=
  match w.oracle with
  | OSEv.pipeEv r :: rest => (r, {w with oracle := rest})
  | _ :: rest => (none, {w with oracle := rest})
  | [] => (none, w)

/-- Consume the oracle event of one blocking `waitpid` on an `execvp`
child; errno on failure, the raw wait status otherwise. -/
def popWaitS (w : World) : Except Nat Nat × World :=
  match w.oracle with
  | OSEv.waitEv r :: rest => (r, {w with oracle := rest})
  | _ :: rest => (Except.ok 0, {w with oracle := rest})
  | [] => (Except.ok 0, w)

/-- Consume the oracle event of one blocking `waitpid` on a recursively
modelled child; `some errno` on failure. -/
def popWaitR (w : World) : Option Nat × World :=
  match w.oracle with
  | OSEv.waitREv r :: rest => (r, {w with oracle := rest})
  | _ :: rest => (none, {w with oracle := rest})
  | [] => (none, w)

/-- `pushd_stack`: push a path onto the global directory stack. -/
def pushd_stack (path : String) (w : World) : World :=
  {w with dirStack := path :: w.dirStack}

/-- `popd_stack`: pop the top of the directory stack, or none if empty. -/
def popd_stack (w : World) : Option String × World :=
  match w.dirStack with
  | [] => (none, w)
  | p :: rest => (some p, {w with dirStack := rest})

/-- `print_dir_stack`: print the current working directory followed by
each stack entry from top to bottom, space separated, on one line. -/
def print_dir_stack (w : World) : World :=
  {w with out := w.out ++ [String.intercalate " " (w.cwd :: w.dirStack)]}

/-- `update_status`: write the decimal of the status into the environment
variable named by a question mark.  The source ignores the return value at
its call site; `setenv` is modelled as succeeding. -/
def update_status (status : Nat) (w : World) : World :=
  {w with env := envSet w.env "?" (toString status)}

/-- The diagnostic line `reap_zombies` emits for one reaped child. -/
def completedLine (pid ws : Nat) : String :=
  "Completed: " ++ toString pid ++ " (" ++ toString (translateStatus ws) ++ ")"

/-- The body of the reaper loop: each successful non-blocking wait
acknowledges one terminated child and reports it with a Completed line. -/
def reap_loop : List (Nat × Nat) → World → World
  | [], w => w
  | (pid, st) :: rest, w => reap_loop rest (addDiag w (completedLine pid st))

/-- `reap_zombies`: loop over `waitpid(-1, ..., WNOHANG)` until it stops
returning terminated children, reporting each reaped child; the loop
consumes exactly the pending terminated children. -/
def reap_zombies (w : World) : World :=
  reap_loop w.zombies {w with zombies := []}

/-- `sigchld_handler`: the SIGCHLD handler installed at program start
simply calls `reap_zombies`. -/
def sigchld_handler (w : World) : World := reap_zombies w

/-- The cd branch of `handle_builtin`: with no argument change to HOME
(failing with status 1 when HOME is unset), with one argument change to
it, with more arguments fail with status 1; a failing `chdir` propagates
the OS error. -/
def builtin_cd (fs : FS) (args : List String) (w : World) : Nat × World :=
  match args with
  | [] =>
      (match envGet w.env "HOME" with
       | none => (1, addDiag w "cd: HOME not set")
       | some home =>
           match fs w.cwd home with
           | Except.error e => (e, addDiag w "cd")
           | Except.ok nc => (0, {w with cwd := nc}))
  | [d] =>
      (match fs w.cwd d with
       | Except.error e => (e, addDiag w "cd")
       | Except.ok nc => (0, {w with cwd := nc}))
  | _ => (1, addDiag w "cd: too many arguments")

/-- The pushd branch of `handle_builtin`: with exactly one argument,
capture the current working directory, `chdir` to the argument (stack
untouched and the OS error returned on failure), push the captured
directory and print the new directory followed by the stack. -/
def builtin_pushd (fs : FS) (args : List String) (w : World) : Nat × World :=
  match args with
  | [d] =>
      (match fs w.cwd d with
       | Except.error e => (e, addDiag w "pushd")
       | Except.ok nc =>
           (0, print_dir_stack (pushd_stack w.cwd {w with cwd := nc})))
  | _ => (1, addDiag w "pushd: wrong number of arguments")

/-- The popd branch of `handle_builtin`: with no argument, pop the stack
(failing with status 1 when it is empty) and `chdir` to the popped entry;
a failing `chdir` returns the OS error with the entry already popped. -/
def builtin_popd (fs : FS) (args : List String) (w : World) : Nat × World :=
  match args with
  | [] =>
      (match popd_stack w with
       | (none, w1) => (1, addDiag w1 "popd: directory stack empty")
       | (some p, w1) =>
           match fs w1.cwd p with
           | Except.error e => (e, addDiag w1 "popd")
           | Except.ok nc => (0, print_dir_stack {w1 with cwd := nc}))
  | _ => (1, addDiag w "popd: wrong number of arguments")

/-- `handle_builtin`: run cd, pushd or popd in the executor process and
return its status, or none (the C sentinel -1) when the command is not a
built-in.  The guard requires a SIMPLE node with a nonempty argv.
`getcwd` is modelled as returning the tracked current directory. -/
def handle_builtin (fs : FS) (cmd : CMD) (w : World) : Option (Nat × World) :=
  match cmd with
  | CMD.mk CmdType.SIMPLE (a0 :: args) _ _ _ _ _ _ _ _ =>
      if a0 = "cd" then some (builtin_cd fs args w)
      else if a0 = "pushd" then some (builtin_pushd fs args w)
      else if a0 = "popd" then some (builtin_popd fs args w)
      else none
  | _ => none

/-- `execute_simple`: handle a SIMPLE node.  Built-ins short-circuit
before any fork.  Otherwise fork (errno on failure), record the child,
and blockingly wait for it: errno if the wait fails, else the translated
wait status.  The child installs redirections and local bindings and
calls `execvp`; all of that is summarised by the raw wait status carried
in the wait event. -/
def execute_simple (fs : FS) (cmd : CMD) (w : World) : Nat × World :=
  match handle_builtin fs cmd w with
  | some p => p
  | none =>
      match popFork w with
      | (Except.error e, w1) => (e, addDiag w1 "fork")
      | (Except.ok (pid, _), w1) =>
          match popWaitS {w1 with forks := w1.forks ++ [pid]} with
          | (Except.error e, w2) => (e, addDiag w2 "waitpid")
          | (Except.ok ws, w2) =>
              (translateStatus ws, {w2 with waits := w2.waits ++ [pid]})

/-- `process`: the recursive dispatcher.  A NULL tree returns 0 at once.
Otherwise the switch on the node type computes a status; branches that
`return errno` early are the `Except.error` alternative and skip the
final `update_status`, while every branch that falls through the switch
reaches `update_status` before returning. -/
def process (fs : FS) : CMD → World → Nat × World
  | CMD.null, w => (0, w)
  | CMD.mk t a lv ft ffi tt0 tfi et l r, w =>
    let step : Except (Nat × World) (Nat × World) :=
      match t with
      | CmdType.SIMPLE =>
          Except.ok (execute_simple fs (CMD.mk CmdType.SIMPLE a lv ft ffi tt0 tfi et l r) w)
      | CmdType.PIPE =>
          match popPipe w with
          | (some e, w1) => Except.error (e, addDiag w1 "pipe")
          | (none, w1) =>
              match popFork w1 with
              | (Except.error e, w2) => Except.error (e, addDiag w2 "fork")
              | (Except.ok (pidL, coL), w2) =>
                  -- the left child dups the write end onto stdout and runs
                  -- `exit(process(cmd.left))` on its own copy; the parent
                  -- ignores its status (no pipefail)
                  let _ := (process fs l {w2 with oracle := coL}).1 % 256
                  let w2f := {w2 with forks := w2.forks ++ [pidL]}
                  match popFork w2f with
                  | (Except.error e, w3) => Except.error (e, addDiag w3 "fork")
                  | (Except.ok (pidR, coR), w3) =>
                      let sR := (process fs r {w3 with oracle := coR}).1 % 256
                      let w3f := {w3 with forks := w3.forks ++ [pidR]}
                      match popWaitR w3f with
                      | (some e, w4) => Except.error (e, addDiag w4 "waitpid")
                      | (none, w4) =>
                          let w4w := {w4 with waits := w4.waits ++ [pidL]}
                          match popWaitR w4w with
                          | (some e, w5) => Except.error (e, addDiag w5 "waitpid")
                          | (none, w5) =>
                              let w5w := {w5 with waits := w5.waits ++ [pidR]}
                              Except.ok (translateStatus (exitedStatus sR), w5w)
      | CmdType.SEP_AND =>
          let p1 := process fs l w
          if p1.1 == 0 then Except.ok (process fs r p1.2)
          else Except.ok (p1.1, p1.2)
      | CmdType.SEP_OR =>
          let p1 := process fs l w
          if p1.1 != 0 then Except.ok (process fs r p1.2)
          else Except.ok (p1.1, p1.2)
      | CmdType.SEP_END =>
          let p1 := process fs l w
          Except.ok (process fs r p1.2)
      | CmdType.SEP_BG =>
          match popFork w with
          | (Except.error e, w1) => Except.error (e, addDiag w1 "fork")
          | (Except.ok (pid, co), w1) =>
              -- the child runs `exit(process(cmd.left))` on its own copy;
              -- the parent reports it, never waits, and the terminated
              -- child stays pending until a reaper pass
              let sL := (process fs l {w1 with oracle := co}).1
              let w2 := {w1 with
                forks := w1.forks ++ [pid],
                diag := w1.diag ++ ["Backgrounded: " ++ toString pid],
                zombies := w1.zombies ++ [(pid, exitedStatus sL)]}
              match r with
              | CMD.null => Except.ok (0, w2)
              | _ => Except.ok (process fs r w2)
      | CmdType.SUBCMD =>
          match popFork w with
          | (Except.error e, w1) => Except.error (e, addDiag w1 "fork")
          | (Except.ok (pid, co), w1) =>
              -- the subshell child installs redirections and local
              -- bindings in its own copy, then exits with the status of
              -- the body
              let sC := (process fs l
                {w1 with oracle := co, env := applyLocals lv w1.env}).1 % 256
              let w2 := {w1 with forks := w1.forks ++ [pid]}
              match popWaitR w2 with
              | (some e, w3) => Except.error (e, addDiag w3 "waitpid")
              | (none, w3) =>
                  Except.ok (translateStatus (exitedStatus sC),
                    {w3 with waits := w3.waits ++ [pid]})
      | CmdType.NONE =>
          Except.ok (1, addDiag w "Unsupported or invalid command type")
      | CmdType.ERROR =>
          Except.ok (1, addDiag w "Unsupported or invalid command type")
    match step with
    | Except.error p => p
    | Except.ok p => (p.1, update_status p.1 p.2)

/-- A filesystem on which every `chdir` fails with errno 1. -/
def fsNoop : FS := fun _ _ => Except.error 1

/-- A filesystem on which `chdir` always succeeds and the new current
directory is the argument itself. -/
def fsFree : FS := fun _ p => Except.ok p

/-- A world whose environment already records a last status of 7. -/
def wQ7 : World :=
  {env := [("?", "7")], cwd := "/tmp", dirStack := [], zombies := [],
   out := [], diag := [], forks := [], waits := [], oracle := []}

/-- A SIMPLE node invoking an external program with no redirections. -/
def extCmd : CMD :=
  CMD.mk CmdType.SIMPLE ["/bin/prog"] [] RedirType.NONE "" RedirType.NONE ""
    RedirType.NONE CMD.null CMD.null

/-- A SEP_END node whose right operand is the NULL pointer. -/
def seqNoRight : CMD :=
  CMD.mk CmdType.SEP_END [] [] RedirType.NONE "" RedirType.NONE ""
    RedirType.NONE extCmd CMD.null

/-- A world whose oracle makes the next external command exit with 5. -/
def wExt5 : World :=
  {env := [], cwd := "/tmp", dirStack := [], zombies := [], out := [],
   diag := [], forks := [], waits := [],
   oracle := [OSEv.forkEv (Except.ok 3) [], OSEv.waitEv (Except.ok (exitedStatus 5))]}

/-- A world whose oracle delivers the raw wait status 127 for the next
external command: low seven bits 0x7f, the encoding of a stopped report,
which is neither a normal exit nor a death by signal. -/
def wStop : World :=
  {env := [], cwd := "/tmp", dirStack := [], zombies := [], out := [],
   diag := [], forks := [], waits := [],
   oracle := [OSEv.forkEv (Except.ok 9) [], OSEv.waitEv (Except.ok 127)]}

/-- A world whose oracle makes the next external command die by signal 9
(raw wait status 9). -/
def wSig9 : World :=
  {env := [], cwd := "/tmp", dirStack := [], zombies := [], out := [],
   diag := [], forks := [], waits := [],
   oracle := [OSEv.forkEv (Except.ok 4) [], OSEv.waitEv (Except.ok 9)]}

/-- A world whose oracle makes the next external command exit with 0. -/
def wExt0 : World :=
  {env := [], cwd := "/tmp", dirStack := [], zombies := [], out := [],
   diag := [], forks := [], waits := [],
   oracle := [OSEv.forkEv (Except.ok 3) [], OSEv.waitEv (Except.ok 0)]}

/-- The oracle stream of a concrete backgrounded child: it forks an
external program that exits with status 5. -/
def bgChildOracle : List OSEv :=
  [OSEv.forkEv (Except.ok 3) [], OSEv.waitEv (Except.ok (exitedStatus 5))]

/-- A world about to background a child as pid 8. -/
def wBG : World :=
  {env := [], cwd := "/tmp", dirStack := [], zombies := [], out := [],
   diag := [], forks := [], waits := [],
   oracle := [OSEv.forkEv (Except.ok 8) bgChildOracle]}

/-- The parent world right after backgrounding pid 8: the notice is on
the diagnostic stream, the fork is recorded, no wait happened, and the
terminated child is pending with exit status 5. -/
def wBGdone : World :=
  {env := [], cwd := "/tmp", dirStack := [], zombies := [(8, exitedStatus 5)],
   out := [], diag := ["Backgrounded: 8"], forks := [8], waits := [],
   oracle := []}

/-- A world holding one terminated unreaped child, pid 42 exited with 0. -/
def wZombie : World :=
  {env := [], cwd := "/tmp", dirStack := [], zombies := [(42, 0)], out := [],
   diag := [], forks := [], waits := [], oracle := []}

/-- A cd command used to drive one `process` call. -/
def cdRoot : CMD :=
  CMD.mk CmdType.SIMPLE ["cd", "/"] [] RedirType.NONE "" RedirType.NONE ""
    RedirType.NONE CMD.null CMD.null

/-- A pushd node with one argument and no redirections. -/
def pushdCmd (X : String) : CMD :=
  CMD.mk CmdType.SIMPLE ["pushd", X] [] RedirType.NONE "" RedirType.NONE ""
    RedirType.NONE CMD.null CMD.null

/-- A popd node with no argument and no redirections. -/
def popdCmd : CMD :=
  CMD.mk CmdType.SIMPLE ["popd"] [] RedirType.NONE "" RedirType.NONE ""
    RedirType.NONE CMD.null CMD.null

/-- A PIPE node between two external commands, no redirections. -/
def pipeCmd : CMD :=
  CMD.mk CmdType.PIPE [] [] RedirType.NONE "" RedirType.NONE ""
    RedirType.NONE extCmd extCmd

/-- A SUBCMD node around an external command, no redirections. -/
def subshellCmd : CMD :=
  CMD.mk CmdType.SUBCMD [] [] RedirType.NONE "" RedirType.NONE ""
    RedirType.NONE extCmd CMD.null

/-- A SEP_BG node backgrounding an external command, no right operand. -/
def bgSimpleCmd : CMD :=
  CMD.mk CmdType.SEP_BG [] [] RedirType.NONE "" RedirType.NONE ""
    RedirType.NONE extCmd CMD.null

/-- A world whose oracle drives one pipeline to completion: the pipe
call succeeds, both forks succeed (pids 11 and 12), both waits succeed. -/
def wPipeOk : World :=
  {env := [], cwd := "/tmp", dirStack := [], zombies := [], out := [],
   diag := [], forks := [], waits := [],
   oracle := [OSEv.pipeEv none, OSEv.forkEv (Except.ok 11) [],
     OSEv.forkEv (Except.ok 12) [], OSEv.waitREv none, OSEv.waitREv none]}

/-- A world whose next `pipe` call fails with errno 5. -/
def wPipeFail : World :=
  {env := [], cwd := "/tmp", dirStack := [], zombies := [], out := [],
   diag := [], forks := [], waits := [],
   oracle := [OSEv.pipeEv (some 5)]}

/-- A world where the pipe succeeds and the first fork fails, errno 7. -/
def wPipeForkFail1 : World :=
  {env := [], cwd := "/tmp", dirStack := [], zombies := [], out := [],
   diag := [], forks := [], waits := [],
   oracle := [OSEv.pipeEv none, OSEv.forkEv (Except.error 7) []]}

/-- A world where the second fork of a pipeline fails, errno 8. -/
def wPipeForkFail2 : World :=
  {env := [], cwd := "/tmp", dirStack := [], zombies := [], out := [],
   diag := [], forks := [], waits := [],
   oracle := [OSEv.pipeEv none, OSEv.forkEv (Except.ok 11) [],
     OSEv.forkEv (Except.error 8) []]}

/-- A world where the first wait of a pipeline fails, errno 9. -/
def wPipeWaitFail1 : World :=
  {env := [], cwd := "/tmp", dirStack := [], zombies := [], out := [],
   diag := [], forks := [], waits := [],
   oracle := [OSEv.pipeEv none, OSEv.forkEv (Except.ok 11) [],
     OSEv.forkEv (Except.ok 12) [], OSEv.waitREv (some 9)]}

/-- A world where the second wait of a pipeline fails, errno 10. -/
def wPipeWaitFail2 : World :=
  {env := [], cwd := "/tmp", dirStack := [], zombies := [], out := [],
   diag := [], forks := [], waits := [],
   oracle := [OSEv.pipeEv none, OSEv.forkEv (Except.ok 11) [],
     OSEv.forkEv (Except.ok 12) [], OSEv.waitREv none, OSEv.waitREv (some 10)]}

/-- A world whose next `fork` call fails with errno 3. -/
def wForkFail : World :=
  {env := [], cwd := "/tmp", dirStack := [], zombies := [], out := [],
   diag := [], forks := [], waits := [],
   oracle := [OSEv.forkEv (Except.error 3) []]}

/-- A world driving a subshell to completion: fork succeeds (pid 13),
the wait succeeds. -/
def wSubOk : World :=
  {env := [], cwd := "/tmp", dirStack := [], zombies := [], out := [],
   diag := [], forks := [], waits := [],
   oracle := [OSEv.forkEv (Except.ok 13) [], OSEv.waitREv none]}

/-- A world where a subshell forks (pid 13) but the wait fails, errno 6. -/
def wSubWaitFail : World :=
  {env := [], cwd := "/tmp", dirStack := [], zombies := [], out := [],
   diag := [], forks := [], waits := [],
   oracle := [OSEv.forkEv (Except.ok 13) [], OSEv.waitREv (some 6)]}

/-! The verification: helper lemmas, then one theorem per claim with
its counterexample or witness where applicable. -/

/-- Looking up a key right after `envSet` on that key yields the value. -/
theorem envGet_envSet (e : List (String × String)) (k v : String) :
    envGet (envSet e k v) k = some v := by
  induction e with
  | nil => simp [envSet, envGet]
  | cons kv rest ih =>
      by_cases h : kv.1 = k <;> simp [envSet, envGet, h, ih]

/-- Claim C10: on the NULL command tree, `process` returns status 0 at
once and leaves the whole world unchanged: the environment (including the
status variable), the directory stack, the pending children, the output
and diagnostic streams, and the fork and wait traces. -/
theorem C10_null_tree_no_effect (fs : FS) (w : World) :
    process fs CMD.null w = (0, w) := rfl

/-- Claim C1, counterexample: on the null tree `process` returns 0 but
does not touch the status variable, so a world whose last recorded status
is 7 still reports 7 afterwards; the claim promised the decimal of the
return value for every variant including the null tree. -/
theorem C1_counterexample :
    (process fsNoop CMD.null wQ7).1 = 0 ∧
    envGet (process fsNoop CMD.null wQ7).2.env "?" ≠
      some (toString (process fsNoop CMD.null wQ7).1) := by
  refine ⟨rfl, ?_⟩
  decide

/-- Claim C2, counterexample: a SEP_END node whose right operand is the
NULL pointer returns 0 even though its left operand exits with status 5,
because the code takes its status from `process(NULL)`; the claim
promised the left status in that case. -/
theorem C2_counterexample :
    (process fsNoop seqNoRight wExt5).1 = 0 ∧
    (process fsNoop extCmd wExt5).1 = 5 := ⟨rfl, rfl⟩

/-- Claim C2, amended: a SEP_END node executes its left operand (status
ignored, though the left run itself updates the status variable), then
its right operand, and returns the right status with a final status
update; when the right operand is the NULL pointer, the right run is
`process(NULL)` which yields 0, so the node returns 0, not the left
status. -/
theorem C2_seq_semantics (fs : FS) (a : List String)
    (lv : List (String × String)) (ft : RedirType) (ffi : String)
    (tt0 : RedirType) (tfi : String) (et : RedirType) (l r : CMD) (w : World) :
    (process fs (CMD.mk CmdType.SEP_END a lv ft ffi tt0 tfi et l r) w =
      ((process fs r (process fs l w).2).1,
        update_status (process fs r (process fs l w).2).1
          (process fs r (process fs l w).2).2))
    ∧ (r = CMD.null →
        (process fs (CMD.mk CmdType.SEP_END a lv ft ffi tt0 tfi et l r) w).1 = 0) := by
  refine ⟨rfl, ?_⟩
  rintro rfl
  rfl

/-- Claim C2, witness: the amended semantics applied to a concrete
SEP_END node with a NULL right operand, whose left operand exits with 5,
yields status 0. -/
theorem C2_witness :
    (process fsNoop (CMD.mk CmdType.SEP_END [] [] RedirType.NONE ""
      RedirType.NONE "" RedirType.NONE extCmd CMD.null) wExt5).1 = 0 :=
  (C2_seq_semantics fsNoop [] [] RedirType.NONE "" RedirType.NONE ""
    RedirType.NONE extCmd CMD.null wExt5).2 rfl

/-- Claim C3, counterexample: the raw wait status 127 is neither a normal
exit nor a death by signal, yet the parent translation yields 255, not
the 1 the claim promised for every other outcome: the source has no
branch returning 1, it computes 128 plus the low seven bits whenever the
status is not a normal exit. -/
theorem C3_counterexample :
    WIFEXITED 127 = false ∧ WIFSIGNALED 127 = false ∧
    (execute_simple fsNoop extCmd wStop).1 = 255 ∧ (255 : Nat) ≠ 1 := by
  decide

/-- Claim C3, amended: for a SIMPLE node run as an external program, the
parent blocking wait translates the raw wait status as
`WIFEXITED ? WEXITSTATUS : 128 + WTERMSIG`: a normal exit gives its exit
code, a death by signal N gives 128 + N, and every other outcome also
gives 128 + WTERMSIG of the status (never 1). -/
theorem C3_wait_translation (fs : FS) (cmd : CMD) (w : World)
    (pid : Nat) (co : List OSEv) (ws : Nat) (rest : List OSEv)
    (hb : handle_builtin fs cmd w = none)
    (ho : w.oracle = OSEv.forkEv (Except.ok pid) co ::
            OSEv.waitEv (Except.ok ws) :: rest) :
    (execute_simple fs cmd w).1 = translateStatus ws
    ∧ (WIFEXITED ws = true → (execute_simple fs cmd w).1 = WEXITSTATUS ws)
    ∧ (WIFSIGNALED ws = true → (execute_simple fs cmd w).1 = 128 + WTERMSIG ws)
    ∧ (WIFEXITED ws = false → (execute_simple fs cmd w).1 = 128 + WTERMSIG ws) := by
  have h1 : (execute_simple fs cmd w).1 = translateStatus ws := by
    simp [execute_simple, hb, popFork, popWaitS, ho]
  refine ⟨h1, ?_, ?_, ?_⟩
  · intro hx
    rw [h1]
    simp [translateStatus, hx]
  · intro hsig
    simp only [WIFSIGNALED, Bool.and_eq_true, bne_iff_ne, ne_eq] at hsig
    have hx : WIFEXITED ws = false := by
      simp [WIFEXITED, hsig.1]
    rw [h1]
    simp [translateStatus, hx, WTERMSIG]
  · intro hx
    rw [h1]
    simp [translateStatus, hx, WTERMSIG]

/-- Claim C3, witness: a concrete external command whose child dies by
signal 9 is reported with status 128 + 9. -/
theorem C3_witness :
    (execute_simple fsNoop extCmd wSig9).1 = 128 + WTERMSIG 9 :=
  (C3_wait_translation fsNoop extCmd wSig9 4 [] 9 [] rfl rfl).2.2.1 (by decide)

/-- Claim C4: a SEP_AND node executes its left operand and, when the left
status is 0, executes the right operand and returns its status; otherwise
it returns the left status and the right operand contributes nothing to
the final world.  A SEP_OR node executes its left operand and, when the
left status is nonzero, executes the right operand and returns its
status; otherwise it returns 0 without the right operand contributing. -/
theorem C4_and_or (fs : FS) (a : List String) (lv : List (String × String))
    (ft : RedirType) (ffi : String) (tt0 : RedirType) (tfi : String)
    (et : RedirType) (l r : CMD) (w : World) :
    ((process fs l w).1 = 0 →
      process fs (CMD.mk CmdType.SEP_AND a lv ft ffi tt0 tfi et l r) w =
        ((process fs r (process fs l w).2).1,
          update_status (process fs r (process fs l w).2).1
            (process fs r (process fs l w).2).2))
    ∧ ((process fs l w).1 ≠ 0 →
      process fs (CMD.mk CmdType.SEP_AND a lv ft ffi tt0 tfi et l r) w =
        ((process fs l w).1,
          update_status (process fs l w).1 (process fs l w).2))
    ∧ ((process fs l w).1 ≠ 0 →
      process fs (CMD.mk CmdType.SEP_OR a lv ft ffi tt0 tfi et l r) w =
        ((process fs r (process fs l w).2).1,
          update_status (process fs r (process fs l w).2).1
            (process fs r (process fs l w).2).2))
    ∧ ((process fs l w).1 = 0 →
      process fs (CMD.mk CmdType.SEP_OR a lv ft ffi tt0 tfi et l r) w =
        (0, update_status 0 (process fs l w).2)) := by
  refine ⟨?_, ?_, ?_, ?_⟩ <;> intro h <;>
    simp [process, h, update_status]

/-- Claim C4, witness: a concrete SEP_AND whose left operand exits with 0
runs the right operand and returns its status. -/
theorem C4_witness :
    process fsNoop (CMD.mk CmdType.SEP_AND [] [] RedirType.NONE ""
        RedirType.NONE "" RedirType.NONE extCmd CMD.null) wExt0 =
      ((process fsNoop CMD.null (process fsNoop extCmd wExt0).2).1,
        update_status (process fsNoop CMD.null (process fsNoop extCmd wExt0).2).1
          (process fsNoop CMD.null (process fsNoop extCmd wExt0).2).2) :=
  (C4_and_or fsNoop [] [] RedirType.NONE "" RedirType.NONE "" RedirType.NONE
    extCmd CMD.null wExt0).1 (by decide)

/-- Claim C6: a SEP_BG node forks a child that runs the left operand on
its own copy of the world and terminates with that status (truncated to
eight bits by `exit`, recorded as a pending terminated child); the parent
writes the Backgrounded notice to the diagnostic stream, performs no wait
on that child (when the right operand is the NULL pointer the wait trace
is untouched and the status is 0 after the final update), and when the
right operand is present it is executed in the foreground and its status
is returned. -/
theorem C6_background (fs : FS) (a : List String) (lv : List (String × String))
    (ft : RedirType) (ffi : String) (tt0 : RedirType) (tfi : String)
    (et : RedirType) (l r : CMD) (w : World) (pid : Nat) (co rest : List OSEv)
    (w2 : World)
    (ho : w.oracle = OSEv.forkEv (Except.ok pid) co :: rest)
    (hw2 : w2 = {w with
      oracle := rest
      forks := w.forks ++ [pid]
      diag := w.diag ++ ["Backgrounded: " ++ toString pid]
      zombies := w.zombies ++
        [(pid, exitedStatus (process fs l {w with oracle := co}).1)]}) :
    (r = CMD.null →
      process fs (CMD.mk CmdType.SEP_BG a lv ft ffi tt0 tfi et l r) w =
        (0, update_status 0 w2))
    ∧ (r ≠ CMD.null →
      process fs (CMD.mk CmdType.SEP_BG a lv ft ffi tt0 tfi et l r) w =
        ((process fs r w2).1,
          update_status (process fs r w2).1 (process fs r w2).2)) := by
  subst hw2
  constructor
  · rintro rfl
    simp [process, popFork, ho]
  · intro hr
    cases r with
    | null => exact absurd rfl hr
    | mk t2 a2 lv2 ft2 ffi2 tt2 tfi2 et2 l2 r2 =>
        simp [process, popFork, ho]

/-- Claim C6, witness: a concrete backgrounded command with a NULL right
operand: the child pid 8 is forked, reported, recorded as pending with
the status of the left run, never waited for, and 0 is returned. -/
theorem C6_witness :
    process fsNoop (CMD.mk CmdType.SEP_BG [] [] RedirType.NONE ""
        RedirType.NONE "" RedirType.NONE extCmd CMD.null) wBG =
      (0, update_status 0 wBGdone) :=
  (C6_background fsNoop [] [] RedirType.NONE "" RedirType.NONE ""
    RedirType.NONE extCmd CMD.null wBG 8 bgChildOracle [] wBGdone
    rfl rfl).1 rfl

/-- Claim C7: the built-in pushd with exactly one argument captures the
current working directory, then changes directory: on failure the
directory stack is untouched and the OS error is returned; on success the
captured previous directory is pushed and status 0 is returned (with the
new directory and the stack printed). -/
theorem C7_pushd (fs : FS) (d : String) (lv : List (String × String))
    (ft : RedirType) (ffi : String) (tt0 : RedirType) (tfi : String)
    (et : RedirType) (l r : CMD) (w : World) :
    (∀ e, fs w.cwd d = Except.error e →
      handle_builtin fs (CMD.mk CmdType.SIMPLE ["pushd", d] lv ft ffi tt0 tfi et l r) w =
        some (e, addDiag w "pushd"))
    ∧ (∀ nc, fs w.cwd d = Except.ok nc →
      handle_builtin fs (CMD.mk CmdType.SIMPLE ["pushd", d] lv ft ffi tt0 tfi et l r) w =
        some (0, {w with
          cwd := nc
          dirStack := w.cwd :: w.dirStack
          out := w.out ++ [String.intercalate " " (nc :: w.cwd :: w.dirStack)]})) := by
  constructor
  · intro e he
    simp [handle_builtin, builtin_pushd, he]
  · intro nc hnc
    simp [handle_builtin, builtin_pushd, hnc, print_dir_stack, pushd_stack]

/-- Claim C7, witness: on a filesystem where every chdir fails with errno
1, pushd fails leaving the stack untouched; on a filesystem where chdir
always succeeds, pushd pushes the previous directory and returns 0. -/
theorem C7_witness :
    (handle_builtin fsNoop (CMD.mk CmdType.SIMPLE ["pushd", "/x"] []
        RedirType.NONE "" RedirType.NONE "" RedirType.NONE CMD.null CMD.null) wQ7 =
      some (1, addDiag wQ7 "pushd"))
    ∧ (handle_builtin fsFree (CMD.mk CmdType.SIMPLE ["pushd", "/x"] []
        RedirType.NONE "" RedirType.NONE "" RedirType.NONE CMD.null CMD.null) wQ7 =
      some (0, {wQ7 with
        cwd := "/x"
        dirStack := wQ7.cwd :: wQ7.dirStack
        out := wQ7.out ++ [String.intercalate " " ("/x" :: wQ7.cwd :: wQ7.dirStack)]})) :=
  ⟨(C7_pushd fsNoop "/x" [] RedirType.NONE "" RedirType.NONE "" RedirType.NONE
      CMD.null CMD.null wQ7).1 1 rfl,
   (C7_pushd fsFree "/x" [] RedirType.NONE "" RedirType.NONE "" RedirType.NONE
      CMD.null CMD.null wQ7).2 "/x" rfl⟩

/-- `popPipe` only consumes an oracle event. -/
theorem popPipe_snd_zombies (w : World) : (popPipe w).2.zombies = w.zombies := by
  unfold popPipe
  split <;> rfl

/-- `popFork` only consumes an oracle event. -/
theorem popFork_snd_zombies (w : World) : (popFork w).2.zombies = w.zombies := by
  unfold popFork
  split <;> rfl

/-- `popWaitS` only consumes an oracle event. -/
theorem popWaitS_snd_zombies (w : World) : (popWaitS w).2.zombies = w.zombies := by
  unfold popWaitS
  split <;> rfl

/-- `popWaitR` only consumes an oracle event. -/
theorem popWaitR_snd_zombies (w : World) : (popWaitR w).2.zombies = w.zombies := by
  unfold popWaitR
  split <;> rfl

/-- Pending-children component of a matched `popPipe` result. -/
theorem popPipe_zeq {w : World} {x : Option Nat} {w1 : World}
    (h : popPipe w = (x, w1)) : w1.zombies = w.zombies := by
  have h2 : (popPipe w).2 = w1 := by rw [h]
  rw [← h2, popPipe_snd_zombies]

/-- Pending-children component of a matched `popFork` result. -/
theorem popFork_zeq {w : World} {x : Except Nat (Nat × List OSEv)} {w1 : World}
    (h : popFork w = (x, w1)) : w1.zombies = w.zombies := by
  have h2 : (popFork w).2 = w1 := by rw [h]
  rw [← h2, popFork_snd_zombies]

/-- Pending-children component of a matched `popWaitS` result. -/
theorem popWaitS_zeq {w : World} {x : Except Nat Nat} {w1 : World}
    (h : popWaitS w = (x, w1)) : w1.zombies = w.zombies := by
  have h2 : (popWaitS w).2 = w1 := by rw [h]
  rw [← h2, popWaitS_snd_zombies]

/-- Pending-children component of a matched `popWaitR` result. -/
theorem popWaitR_zeq {w : World} {x : Option Nat} {w1 : World}
    (h : popWaitR w = (x, w1)) : w1.zombies = w.zombies := by
  have h2 : (popWaitR w).2 = w1 := by rw [h]
  rw [← h2, popWaitR_snd_zombies]

/-- The cd built-in touches only the current directory and the
diagnostic stream. -/
theorem builtin_cd_frame (fs : FS) (args : List String) (w : World) :
    (builtin_cd fs args w).2.forks = w.forks ∧
    (builtin_cd fs args w).2.oracle = w.oracle ∧
    (builtin_cd fs args w).2.waits = w.waits ∧
    (builtin_cd fs args w).2.zombies = w.zombies ∧
    (builtin_cd fs args w).2.env = w.env := by
  unfold builtin_cd
  repeat' split
  all_goals simp [addDiag]

/-- The pushd built-in touches only the current directory, the directory
stack and the output streams. -/
theorem builtin_pushd_frame (fs : FS) (args : List String) (w : World) :
    (builtin_pushd fs args w).2.forks = w.forks ∧
    (builtin_pushd fs args w).2.oracle = w.oracle ∧
    (builtin_pushd fs args w).2.waits = w.waits ∧
    (builtin_pushd fs args w).2.zombies = w.zombies ∧
    (builtin_pushd fs args w).2.env = w.env := by
  unfold builtin_pushd
  repeat' split
  all_goals simp [addDiag, print_dir_stack, pushd_stack]

/-- `popd_stack` touches only the directory stack. -/
theorem popd_stack_snd (w : World) :
    (popd_stack w).2.forks = w.forks ∧ (popd_stack w).2.oracle = w.oracle ∧
    (popd_stack w).2.waits = w.waits ∧ (popd_stack w).2.zombies = w.zombies ∧
    (popd_stack w).2.env = w.env ∧ (popd_stack w).2.cwd = w.cwd ∧
    (popd_stack w).2.out = w.out ∧ (popd_stack w).2.diag = w.diag := by
  unfold popd_stack
  split <;> simp

/-- The popd built-in touches only the current directory, the directory
stack and the output streams. -/
theorem builtin_popd_frame (fs : FS) (args : List String) (w : World) :
    (builtin_popd fs args w).2.forks = w.forks ∧
    (builtin_popd fs args w).2.oracle = w.oracle ∧
    (builtin_popd fs args w).2.waits = w.waits ∧
    (builtin_popd fs args w).2.zombies = w.zombies ∧
    (builtin_popd fs args w).2.env = w.env := by
  cases args with
  | cons d rest => simp [builtin_popd, addDiag]
  | nil =>
      cases hd : w.dirStack with
      | nil => simp [builtin_popd, popd_stack, hd, addDiag]
      | cons p rest =>
          rcases hfs : fs w.cwd p with e | nc <;>
            simp [builtin_popd, popd_stack, hd, addDiag, print_dir_stack, hfs]

/-- A built-in that runs leaves the fork and wait traces, the oracle, the
pending children and the environment untouched. -/
theorem handle_builtin_frame (fs : FS) (c : CMD) (w : World) (p : Nat × World)
    (h : handle_builtin fs c w = some p) :
    p.2.forks = w.forks ∧ p.2.oracle = w.oracle ∧ p.2.waits = w.waits ∧
      p.2.zombies = w.zombies ∧ p.2.env = w.env := by
  unfold handle_builtin at h
  split at h
  · split at h
    · injection h with h2
      subst h2
      exact builtin_cd_frame ..
    · split at h
      · injection h with h2
        subst h2
        exact builtin_pushd_frame ..
      · split at h
        · injection h with h2
          subst h2
          exact builtin_popd_frame ..
        · cases h
  · cases h

/-- A built-in short-circuits `execute_simple`. -/
theorem execute_simple_builtin {fs : FS} {c : CMD} {w : World} {p : Nat × World}
    (hb : handle_builtin fs c w = some p) : execute_simple fs c w = p := by
  simp only [execute_simple, hb]

/-- A failing fork makes `execute_simple` return the errno. -/
theorem execute_simple_fork_fail {fs : FS} {c : CMD} {w : World} {e : Nat}
    {w1 : World} (hb : handle_builtin fs c w = none)
    (hf : popFork w = (Except.error e, w1)) :
    execute_simple fs c w = (e, addDiag w1 "fork") := by
  simp only [execute_simple, hb, hf]

/-- A failing wait makes `execute_simple` return the errno. -/
theorem execute_simple_wait_fail {fs : FS} {c : CMD} {w : World} {pid : Nat}
    {co : List OSEv} {w1 : World} {e : Nat} {w2 : World}
    (hb : handle_builtin fs c w = none)
    (hf : popFork w = (Except.ok (pid, co), w1))
    (hw : popWaitS {w1 with forks := w1.forks ++ [pid]} = (Except.error e, w2)) :
    execute_simple fs c w = (e, addDiag w2 "waitpid") := by
  simp only [execute_simple, hb, hf, hw]

/-- A successful external run returns the translated wait status. -/
theorem execute_simple_run {fs : FS} {c : CMD} {w : World} {pid : Nat}
    {co : List OSEv} {w1 : World} {ws : Nat} {w2 : World}
    (hb : handle_builtin fs c w = none)
    (hf : popFork w = (Except.ok (pid, co), w1))
    (hw : popWaitS {w1 with forks := w1.forks ++ [pid]} = (Except.ok ws, w2)) :
    execute_simple fs c w =
      (translateStatus ws, {w2 with waits := w2.waits ++ [pid]}) := by
  simp only [execute_simple, hb, hf, hw]

/-- The SIMPLE branch of the dispatcher delegates to `execute_simple` and
updates the status variable. -/
theorem process_simple_eq (fs : FS) (a : List String)
    (lv : List (String × String)) (ft : RedirType) (ffi : String)
    (tt0 : RedirType) (tfi : String) (et : RedirType) (l r : CMD) (w : World) :
    process fs (CMD.mk CmdType.SIMPLE a lv ft ffi tt0 tfi et l r) w =
      ((execute_simple fs (CMD.mk CmdType.SIMPLE a lv ft ffi tt0 tfi et l r) w).1,
        update_status
          (execute_simple fs (CMD.mk CmdType.SIMPLE a lv ft ffi tt0 tfi et l r) w).1
          (execute_simple fs (CMD.mk CmdType.SIMPLE a lv ft ffi tt0 tfi et l r) w).2) :=
  rfl

/-- The SEP_AND branch: left, then conditionally right. -/
theorem process_and_eq (fs : FS) (a : List String)
    (lv : List (String × String)) (ft : RedirType) (ffi : String)
    (tt0 : RedirType) (tfi : String) (et : RedirType) (l r : CMD) (w : World) :
    process fs (CMD.mk CmdType.SEP_AND a lv ft ffi tt0 tfi et l r) w =
      (if (process fs l w).1 == 0
       then ((process fs r (process fs l w).2).1,
         update_status (process fs r (process fs l w).2).1
           (process fs r (process fs l w).2).2)
       else ((process fs l w).1,
         update_status (process fs l w).1 (process fs l w).2)) := by
  cases hb : (process fs l w).1 == 0 <;> simp [process, hb]

/-- The SEP_OR branch: left, then conditionally right. -/
theorem process_or_eq (fs : FS) (a : List String)
    (lv : List (String × String)) (ft : RedirType) (ffi : String)
    (tt0 : RedirType) (tfi : String) (et : RedirType) (l r : CMD) (w : World) :
    process fs (CMD.mk CmdType.SEP_OR a lv ft ffi tt0 tfi et l r) w =
      (if (process fs l w).1 != 0
       then ((process fs r (process fs l w).2).1,
         update_status (process fs r (process fs l w).2).1
           (process fs r (process fs l w).2).2)
       else ((process fs l w).1,
         update_status (process fs l w).1 (process fs l w).2)) := by
  cases hb : (process fs l w).1 != 0 <;> simp [process, hb]

/-- The SEP_END branch: left, then right, returning the right status. -/
theorem process_seq_eq (fs : FS) (a : List String)
    (lv : List (String × String)) (ft : RedirType) (ffi : String)
    (tt0 : RedirType) (tfi : String) (et : RedirType) (l r : CMD) (w : World) :
    process fs (CMD.mk CmdType.SEP_END a lv ft ffi tt0 tfi et l r) w =
      ((process fs r (process fs l w).2).1,
        update_status (process fs r (process fs l w).2).1
          (process fs r (process fs l w).2).2) :=
  rfl

/-- The PIPE branch with a failing `pipe` call. -/
theorem process_pipe_fail1 {fs : FS} {a : List String}
    {lv : List (String × String)} {ft : RedirType} {ffi : String}
    {tt0 : RedirType} {tfi : String} {et : RedirType} {l r : CMD} {w : World}
    {e : Nat} {w1 : World} (hpp : popPipe w = (some e, w1)) :
    process fs (CMD.mk CmdType.PIPE a lv ft ffi tt0 tfi et l r) w =
      (e, addDiag w1 "pipe") := by
  simp only [process, hpp]

/-- The PIPE branch with a failing first fork. -/
theorem process_pipe_fail2 {fs : FS} {a : List String}
    {lv : List (String × String)} {ft : RedirType} {ffi : String}
    {tt0 : RedirType} {tfi : String} {et : RedirType} {l r : CMD} {w : World}
    {w1 : World} {e : Nat} {w2 : World} (hpp : popPipe w = (none, w1))
    (hf1 : popFork w1 = (Except.error e, w2)) :
    process fs (CMD.mk CmdType.PIPE a lv ft ffi tt0 tfi et l r) w =
      (e, addDiag w2 "fork") := by
  simp only [process, hpp, hf1]

/-- The PIPE branch with a failing second fork. -/
theorem process_pipe_fail3 {fs : FS} {a : List String}
    {lv : List (String × String)} {ft : RedirType} {ffi : String}
    {tt0 : RedirType} {tfi : String} {et : RedirType} {l r : CMD} {w : World}
    {w1 : World} {pidL : Nat} {coL : List OSEv} {w2 : World} {e : Nat}
    {w3 : World} (hpp : popPipe w = (none, w1))
    (hf1 : popFork w1 = (Except.ok (pidL, coL), w2))
    (hf2 : popFork {w2 with forks := w2.forks ++ [pidL]} = (Except.error e, w3)) :
    process fs (CMD.mk CmdType.PIPE a lv ft ffi tt0 tfi et l r) w =
      (e, addDiag w3 "fork") := by
  simp only [process, hpp, hf1, hf2]

/-- The PIPE branch with a failing first wait. -/
theorem process_pipe_fail4 {fs : FS} {a : List String}
    {lv : List (String × String)} {ft : RedirType} {ffi : String}
    {tt0 : RedirType} {tfi : String} {et : RedirType} {l r : CMD} {w : World}
    {w1 : World} {pidL : Nat} {coL : List OSEv} {w2 : World} {pidR : Nat}
    {coR : List OSEv} {w3 : World} {e : Nat} {w4 : World}
    (hpp : popPipe w = (none, w1))
    (hf1 : popFork w1 = (Except.ok (pidL, coL), w2))
    (hf2 : popFork {w2 with forks := w2.forks ++ [pidL]} = (Except.ok (pidR, coR), w3))
    (hw1 : popWaitR {w3 with forks := w3.forks ++ [pidR]} = (some e, w4)) :
    process fs (CMD.mk CmdType.PIPE a lv ft ffi tt0 tfi et l r) w =
      (e, addDiag w4 "waitpid") := by
  simp only [process, hpp, hf1, hf2, hw1]

/-- The PIPE branch with a failing second wait. -/
theorem process_pipe_fail5 {fs : FS} {a : List String}
    {lv : List (String × String)} {ft : RedirType} {ffi : String}
    {tt0 : RedirType} {tfi : String} {et : RedirType} {l r : CMD} {w : World}
    {w1 : World} {pidL : Nat} {coL : List OSEv} {w2 : World} {pidR : Nat}
    {coR : List OSEv} {w3 : World} {w4 : World} {e : Nat} {w5 : World}
    (hpp : popPipe w = (none, w1))
    (hf1 : popFork w1 = (Except.ok (pidL, coL), w2))
    (hf2 : popFork {w2 with forks := w2.forks ++ [pidL]} = (Except.ok (pidR, coR), w3))
    (hw1 : popWaitR {w3 with forks := w3.forks ++ [pidR]} = (none, w4))
    (hw2 : popWaitR {w4 with waits := w4.waits ++ [pidL]} = (some e, w5)) :
    process fs (CMD.mk CmdType.PIPE a lv ft ffi tt0 tfi et l r) w =
      (e, addDiag w5 "waitpid") := by
  simp only [process, hpp, hf1, hf2, hw1, hw2]

/-- The PIPE branch on its success path: the status of the rightmost
child, translated from its exit encoding. -/
theorem process_pipe_run {fs : FS} {a : List String}
    {lv : List (String × String)} {ft : RedirType} {ffi : String}
    {tt0 : RedirType} {tfi : String} {et : RedirType} {l r : CMD} {w : World}
    {w1 : World} {pidL : Nat} {coL : List OSEv} {w2 : World} {pidR : Nat}
    {coR : List OSEv} {w3 : World} {w4 : World} {w5 : World}
    (hpp : popPipe w = (none, w1))
    (hf1 : popFork w1 = (Except.ok (pidL, coL), w2))
    (hf2 : popFork {w2 with forks := w2.forks ++ [pidL]} = (Except.ok (pidR, coR), w3))
    (hw1 : popWaitR {w3 with forks := w3.forks ++ [pidR]} = (none, w4))
    (hw2 : popWaitR {w4 with waits := w4.waits ++ [pidL]} = (none, w5)) :
    process fs (CMD.mk CmdType.PIPE a lv ft ffi tt0 tfi et l r) w =
      (translateStatus (exitedStatus ((process fs r {w3 with oracle := coR}).1 % 256)),
        update_status
          (translateStatus (exitedStatus ((process fs r {w3 with oracle := coR}).1 % 256)))
          {w5 with waits := w5.waits ++ [pidR]}) := by
  simp only [process, hpp, hf1, hf2, hw1, hw2]

/-- The SEP_BG branch with a failing fork. -/
theorem process_bg_fail {fs : FS} {a : List String}
    {lv : List (String × String)} {ft : RedirType} {ffi : String}
    {tt0 : RedirType} {tfi : String} {et : RedirType} {l r : CMD} {w : World}
    {e : Nat} {w1 : World} (hf : popFork w = (Except.error e, w1)) :
    process fs (CMD.mk CmdType.SEP_BG a lv ft ffi tt0 tfi et l r) w =
      (e, addDiag w1 "fork") := by
  simp only [process, hf]

/-- The SEP_BG branch with no right operand: report the child, record it
as pending with the status of the left run, return 0. -/
theorem process_bg_null {fs : FS} {a : List String}
    {lv : List (String × String)} {ft : RedirType} {ffi : String}
    {tt0 : RedirType} {tfi : String} {et : RedirType} {l : CMD} {w : World}
    {pid : Nat} {co : List OSEv} {w1 : World}
    (hf : popFork w = (Except.ok (pid, co), w1)) :
    process fs (CMD.mk CmdType.SEP_BG a lv ft ffi tt0 tfi et l CMD.null) w =
      (0, update_status 0
        {w1 with
          forks := w1.forks ++ [pid]
          diag := w1.diag ++ ["Backgrounded: " ++ toString pid]
          zombies := w1.zombies ++
            [(pid, exitedStatus (process fs l {w1 with oracle := co}).1)]}) := by
  simp only [process, hf]

/-- The SEP_BG branch with a right operand: report the child, record it
as pending, run the right operand in the foreground. -/
theorem process_bg_cont {fs : FS} {a : List String}
    {lv : List (String × String)} {ft : RedirType} {ffi : String}
    {tt0 : RedirType} {tfi : String} {et : RedirType} {l r : CMD} {w : World}
    {pid : Nat} {co : List OSEv} {w1 : World}
    (hf : popFork w = (Except.ok (pid, co), w1)) (hr : r ≠ CMD.null) :
    process fs (CMD.mk CmdType.SEP_BG a lv ft ffi tt0 tfi et l r) w =
      ((process fs r
          {w1 with
            forks := w1.forks ++ [pid]
            diag := w1.diag ++ ["Backgrounded: " ++ toString pid]
            zombies := w1.zombies ++
              [(pid, exitedStatus (process fs l {w1 with oracle := co}).1)]}).1,
        update_status
          (process fs r
            {w1 with
              forks := w1.forks ++ [pid]
              diag := w1.diag ++ ["Backgrounded: " ++ toString pid]
              zombies := w1.zombies ++
                [(pid, exitedStatus (process fs l {w1 with oracle := co}).1)]}).1
          (process fs r
            {w1 with
              forks := w1.forks ++ [pid]
              diag := w1.diag ++ ["Backgrounded: " ++ toString pid]
              zombies := w1.zombies ++
                [(pid, exitedStatus (process fs l {w1 with oracle := co}).1)]}).2) := by
  cases r with
  | null => exact absurd rfl hr
  | mk t2 a2 lv2 ft2 ffi2 tt2 tfi2 et2 l2 r2 => simp only [process, hf]

/-- The SUBCMD branch with a failing fork. -/
theorem process_sub_fail1 {fs : FS} {a : List String}
    {lv : List (String × String)} {ft : RedirType} {ffi : String}
    {tt0 : RedirType} {tfi : String} {et : RedirType} {l r : CMD} {w : World}
    {e : Nat} {w1 : World} (hf : popFork w = (Except.error e, w1)) :
    process fs (CMD.mk CmdType.SUBCMD a lv ft ffi tt0 tfi et l r) w =
      (e, addDiag w1 "fork") := by
  simp only [process, hf]

/-- The SUBCMD branch with a failing wait. -/
theorem process_sub_fail2 {fs : FS} {a : List String}
    {lv : List (String × String)} {ft : RedirType} {ffi : String}
    {tt0 : RedirType} {tfi : String} {et : RedirType} {l r : CMD} {w : World}
    {pid : Nat} {co : List OSEv} {w1 : World} {e : Nat} {w3 : World}
    (hf : popFork w = (Except.ok (pid, co), w1))
    (hw : popWaitR {w1 with forks := w1.forks ++ [pid]} = (some e, w3)) :
    process fs (CMD.mk CmdType.SUBCMD a lv ft ffi tt0 tfi et l r) w =
      (e, addDiag w3 "waitpid") := by
  simp only [process, hf, hw]

/-- The SUBCMD branch on its success path: the subshell child applies the
local bindings, runs the body and exits; the parent returns its
translated status. -/
theorem process_sub_run {fs : FS} {a : List String}
    {lv : List (String × String)} {ft : RedirType} {ffi : String}
    {tt0 : RedirType} {tfi : String} {et : RedirType} {l r : CMD} {w : World}
    {pid : Nat} {co : List OSEv} {w1 : World} {w3 : World}
    (hf : popFork w = (Except.ok (pid, co), w1))
    (hw : popWaitR {w1 with forks := w1.forks ++ [pid]} = (none, w3)) :
    process fs (CMD.mk CmdType.SUBCMD a lv ft ffi tt0 tfi et l r) w =
      (translateStatus (exitedStatus
          ((process fs l {w1 with oracle := co, env := applyLocals lv w1.env}).1 % 256)),
        update_status
          (translateStatus (exitedStatus
            ((process fs l {w1 with oracle := co, env := applyLocals lv w1.env}).1 % 256)))
          {w3 with waits := w3.waits ++ [pid]}) := by
  simp only [process, hf, hw]

/-- The NONE and ERROR codes fall into the unsupported-type branch. -/
theorem process_bad_eq (fs : FS) (t : CmdType) (a : List String)
    (lv : List (String × String)) (ft : RedirType) (ffi : String)
    (tt0 : RedirType) (tfi : String) (et : RedirType) (l r : CMD) (w : World)
    (h : t = CmdType.NONE ∨ t = CmdType.ERROR) :
    process fs (CMD.mk t a lv ft ffi tt0 tfi et l r) w =
      (1, update_status 1 (addDiag w "Unsupported or invalid command type")) := by
  rcases h with rfl | rfl <;> rfl

/-- `execute_simple` never touches the pending terminated children. -/
theorem execute_simple_zombies (fs : FS) (c : CMD) (w : World) :
    (execute_simple fs c w).2.zombies = w.zombies := by
  rcases hb : handle_builtin fs c w with _ | p
  · rcases hf : popFork w with ⟨e | ⟨pid, co⟩, w1⟩
    · rw [execute_simple_fork_fail hb hf]
      simp [addDiag, popFork_zeq hf]
    · rcases hw : popWaitS {w1 with forks := w1.forks ++ [pid]} with ⟨e2 | ws, w2⟩
      · rw [execute_simple_wait_fail hb hf hw]
        simp [addDiag, popWaitS_zeq hw, popFork_zeq hf]
      · rw [execute_simple_run hb hf hw]
        simp [popWaitS_zeq hw, popFork_zeq hf]
  · rw [execute_simple_builtin hb]
    exact (handle_builtin_frame fs c w p hb).2.2.2.1

/-- `process` never removes a pending terminated child: the pending list
on return extends the pending list at entry (a backgrounded child is the
only addition).  In particular the dispatcher never reaps. -/
theorem process_zombies_mono (fs : FS) (c : CMD) :
    ∀ w : World, ∃ zs, (process fs c w).2.zombies = w.zombies ++ zs := by
  induction c with
  | null =>
      intro w
      exact ⟨[], by simp [process]⟩
  | mk t a lv ft ffi tt0 tfi et l r ihl ihr =>
      intro w
      cases t
      case SIMPLE =>
        refine ⟨[], ?_⟩
        rw [process_simple_eq]
        simp [update_status, execute_simple_zombies]
      case PIPE =>
        refine ⟨[], ?_⟩
        rcases hpp : popPipe w with ⟨_ | e1, w1⟩
        · rcases hf1 : popFork w1 with ⟨er1 | ⟨pidL, coL⟩, w2⟩
          · rw [process_pipe_fail2 hpp hf1]
            simp [addDiag, popFork_zeq hf1, popPipe_zeq hpp]
          · rcases hf2 : popFork {w2 with forks := w2.forks ++ [pidL]} with
              ⟨er2 | ⟨pidR, coR⟩, w3⟩
            · rw [process_pipe_fail3 hpp hf1 hf2]
              simp [addDiag, popFork_zeq hf2, popFork_zeq hf1, popPipe_zeq hpp]
            · rcases hw1 : popWaitR {w3 with forks := w3.forks ++ [pidR]} with
                ⟨_ | e3, w4⟩
              · rcases hw2 : popWaitR {w4 with waits := w4.waits ++ [pidL]} with
                  ⟨_ | e4, w5⟩
                · rw [process_pipe_run hpp hf1 hf2 hw1 hw2]
                  simp [update_status, popWaitR_zeq hw2, popWaitR_zeq hw1,
                    popFork_zeq hf2, popFork_zeq hf1, popPipe_zeq hpp]
                · rw [process_pipe_fail5 hpp hf1 hf2 hw1 hw2]
                  simp [addDiag, popWaitR_zeq hw2, popWaitR_zeq hw1,
                    popFork_zeq hf2, popFork_zeq hf1, popPipe_zeq hpp]
              · rw [process_pipe_fail4 hpp hf1 hf2 hw1]
                simp [addDiag, popWaitR_zeq hw1, popFork_zeq hf2,
                  popFork_zeq hf1, popPipe_zeq hpp]
        · rw [process_pipe_fail1 hpp]
          simp [addDiag, popPipe_zeq hpp]
      case SEP_AND =>
        obtain ⟨z1, hz1⟩ := ihl w
        rw [process_and_eq]
        cases hb : (process fs l w).1 == 0
        · exact ⟨z1, by simp [hb, update_status, hz1]⟩
        · obtain ⟨z2, hz2⟩ := ihr (process fs l w).2
          exact ⟨z1 ++ z2,
            by simp [hb, update_status, hz2, hz1, List.append_assoc]⟩
      case SEP_OR =>
        obtain ⟨z1, hz1⟩ := ihl w
        rw [process_or_eq]
        cases hb : (process fs l w).1 != 0
        · exact ⟨z1, by simp [hb, update_status, hz1]⟩
        · obtain ⟨z2, hz2⟩ := ihr (process fs l w).2
          exact ⟨z1 ++ z2,
            by simp [hb, update_status, hz2, hz1, List.append_assoc]⟩
      case SEP_END =>
        obtain ⟨z1, hz1⟩ := ihl w
        obtain ⟨z2, hz2⟩ := ihr (process fs l w).2
        rw [process_seq_eq]
        exact ⟨z1 ++ z2,
          by simp [update_status, hz2, hz1, List.append_assoc]⟩
      case SEP_BG =>
        rcases hf : popFork w with ⟨er | ⟨pid, co⟩, w1⟩
        · exact ⟨[], by rw [process_bg_fail hf]; simp [addDiag, popFork_zeq hf]⟩
        · cases r
          case null =>
            refine ⟨[(pid, exitedStatus (process fs l {w1 with oracle := co}).1)], ?_⟩
            rw [process_bg_null hf]
            simp [update_status, popFork_zeq hf]
          case mk t2 a2 lv2 ft2 ffi2 tt2 tfi2 et2 l2 r2 =>
            obtain ⟨z2, hz2⟩ := ihr
              {w1 with
                forks := w1.forks ++ [pid]
                diag := w1.diag ++ ["Backgrounded: " ++ toString pid]
                zombies := w1.zombies ++
                  [(pid, exitedStatus (process fs l {w1 with oracle := co}).1)]}
            refine ⟨(pid, exitedStatus (process fs l {w1 with oracle := co}).1) :: z2, ?_⟩
            rw [process_bg_cont hf (by simp)]
            simp only [update_status] at hz2 ⊢
            rw [hz2]
            simp [popFork_zeq hf]
      case SUBCMD =>
        refine ⟨[], ?_⟩
        rcases hf : popFork w with ⟨er | ⟨pid, co⟩, w1⟩
        · rw [process_sub_fail1 hf]
          simp [addDiag, popFork_zeq hf]
        · rcases hw : popWaitR {w1 with forks := w1.forks ++ [pid]} with
            ⟨_ | e3, w3⟩
          · rw [process_sub_run hf hw]
            simp [update_status, popWaitR_zeq hw, popFork_zeq hf]
          · rw [process_sub_fail2 hf hw]
            simp [addDiag, popWaitR_zeq hw, popFork_zeq hf]
      case NONE =>
        exact ⟨[], by rw [process_bad_eq fs CmdType.NONE a lv ft ffi tt0 tfi et l r w (Or.inl rfl)]; simp [update_status, addDiag]⟩
      case ERROR =>
        exact ⟨[], by rw [process_bad_eq fs CmdType.ERROR a lv ft ffi tt0 tfi et l r w (Or.inr rfl)]; simp [update_status, addDiag]⟩

/-- The reaper loop reports exactly the given children, in order. -/
theorem reap_loop_spec (zs : List (Nat × Nat)) :
    ∀ w : World, reap_loop zs w =
      {w with diag := w.diag ++ zs.map (fun pz => completedLine pz.1 pz.2)} := by
  induction zs with
  | nil =>
      intro w
      simp [reap_loop]
  | cons pz rest ih =>
      intro w
      obtain ⟨pid, st⟩ := pz
      simp [reap_loop, ih, addDiag]

/-- Claim C5, counterexample: a world enters `process` with a terminated
unreaped child pending, and after the call the child is still pending and
no Completed line was written: `process` does not invoke the reaper at
its top (reaping happens only in the SIGCHLD handler). -/
theorem C5_counterexample :
    (process fsFree cdRoot wZombie).2.zombies = [(42, 0)] ∧
    (process fsFree cdRoot wZombie).2.diag = [] := by
  decide

/-- Claim C5, amended: reaping is performed by `reap_zombies`, invoked
from the SIGCHLD handler installed at program start rather than at the
top of each `execute` call: it loops non-blockingly over every terminated
child not yet waited for, emits a Completed line with the pid and the
translated status for each, and removes them all; `process` itself never
reaps (its pending list on return always extends the one at entry). -/
theorem C5_reaper :
    (∀ w : World, sigchld_handler w =
      {w with
        zombies := []
        diag := w.diag ++ w.zombies.map (fun pz => completedLine pz.1 pz.2)})
    ∧ (∀ (fs : FS) (c : CMD) (w : World),
        ∃ zs, (process fs c w).2.zombies = w.zombies ++ zs) := by
  constructor
  · intro w
    simp [sigchld_handler, reap_zombies, reap_loop_spec]
  · intro fs c w
    exact process_zombies_mono fs c w

/-- Claim C8: when the chdir to X succeeds and the original directory is
reachable back from there, running pushd X and then popd restores both
the current working directory and the directory stack. -/
theorem C8_pushd_popd (fs : FS) (X d : String) (w : World)
    (h1 : fs w.cwd X = Except.ok d) (h2 : fs d w.cwd = Except.ok w.cwd) :
    ((process fs popdCmd (process fs (pushdCmd X) w).2).2.cwd = w.cwd)
    ∧ ((process fs popdCmd (process fs (pushdCmd X) w).2).2.dirStack = w.dirStack) := by
  have hp : process fs (pushdCmd X) w =
      (0, update_status 0
        (print_dir_stack (pushd_stack w.cwd {w with cwd := d}))) := by
    simp [process, pushdCmd, execute_simple, handle_builtin, builtin_pushd, h1]
  rw [hp]
  constructor <;>
    simp [process, popdCmd, execute_simple, handle_builtin, builtin_popd,
      popd_stack, update_status, print_dir_stack, pushd_stack, h2]

/-- Claim C8, witness: pushd into a concrete directory and popd back
leave the current directory and the stack of a concrete world unchanged. -/
theorem C8_witness :
    ((process fsFree popdCmd (process fsFree (pushdCmd "/tmp") wQ7).2).2.cwd = wQ7.cwd)
    ∧ ((process fsFree popdCmd
        (process fsFree (pushdCmd "/tmp") wQ7).2).2.dirStack = wQ7.dirStack) :=
  C8_pushd_popd fsFree "/tmp" "/tmp" wQ7 rfl rfl

/-- A built-in command always resolves to a result of `handle_builtin`. -/
theorem handle_builtin_isSome (fs : FS) (a0 : String) (args : List String)
    (lv : List (String × String)) (ft : RedirType) (ffi : String)
    (tt0 : RedirType) (tfi : String) (et : RedirType) (l r : CMD) (w : World)
    (h : a0 = "cd" ∨ a0 = "pushd" ∨ a0 = "popd") :
    (handle_builtin fs (CMD.mk CmdType.SIMPLE (a0 :: args) lv ft ffi tt0 tfi et l r) w).isSome := by
  rcases h with rfl | rfl | rfl <;> simp [handle_builtin]

/-- Claim C9: a SIMPLE node whose first argument names cd, pushd or popd
runs the built-in in the executor process: the result is identical to the
result on the same node with its redirections erased, no fork happens
(the fork trace is untouched and no oracle event is consumed), and no
wait happens. -/
theorem C9_builtins (fs : FS) (a0 : String) (args : List String)
    (lv : List (String × String)) (ft : RedirType) (ffi : String)
    (tt0 : RedirType) (tfi : String) (et : RedirType) (l r : CMD) (w : World)
    (h : a0 = "cd" ∨ a0 = "pushd" ∨ a0 = "popd") :
    (execute_simple fs (CMD.mk CmdType.SIMPLE (a0 :: args) lv ft ffi tt0 tfi et l r) w =
      execute_simple fs (CMD.mk CmdType.SIMPLE (a0 :: args) lv
        RedirType.NONE "" RedirType.NONE "" RedirType.NONE l r) w)
    ∧ (execute_simple fs (CMD.mk CmdType.SIMPLE (a0 :: args) lv ft ffi tt0 tfi et l r) w).2.forks = w.forks
    ∧ (execute_simple fs (CMD.mk CmdType.SIMPLE (a0 :: args) lv ft ffi tt0 tfi et l r) w).2.oracle = w.oracle
    ∧ (execute_simple fs (CMD.mk CmdType.SIMPLE (a0 :: args) lv ft ffi tt0 tfi et l r) w).2.waits = w.waits := by
  refine ⟨rfl, ?_⟩
  obtain ⟨p, hp⟩ := Option.isSome_iff_exists.mp
    (handle_builtin_isSome fs a0 args lv ft ffi tt0 tfi et l r w h)
  have he : execute_simple fs (CMD.mk CmdType.SIMPLE (a0 :: args) lv ft ffi tt0 tfi et l r) w = p := by
    simp [execute_simple, hp]
  have hf := handle_builtin_frame fs
    (CMD.mk CmdType.SIMPLE (a0 :: args) lv ft ffi tt0 tfi et l r) w p hp
  rw [he]
  exact ⟨hf.1, hf.2.1, hf.2.2.1⟩

/-- Claim C9, witness: a concrete cd with input and output redirections
attached behaves exactly as without them, forks nothing, consumes no
oracle event and waits for nothing. -/
theorem C9_witness :
    (execute_simple fsFree (CMD.mk CmdType.SIMPLE ["cd", "/x"] []
        RedirType.RED_IN "f" RedirType.RED_OUT "g" RedirType.NONE
        CMD.null CMD.null) wQ7 =
      execute_simple fsFree (CMD.mk CmdType.SIMPLE ["cd", "/x"] []
        RedirType.NONE "" RedirType.NONE "" RedirType.NONE
        CMD.null CMD.null) wQ7)
    ∧ (execute_simple fsFree (CMD.mk CmdType.SIMPLE ["cd", "/x"] []
        RedirType.RED_IN "f" RedirType.RED_OUT "g" RedirType.NONE
        CMD.null CMD.null) wQ7).2.forks = wQ7.forks
    ∧ (execute_simple fsFree (CMD.mk CmdType.SIMPLE ["cd", "/x"] []
        RedirType.RED_IN "f" RedirType.RED_OUT "g" RedirType.NONE
        CMD.null CMD.null) wQ7).2.oracle = wQ7.oracle
    ∧ (execute_simple fsFree (CMD.mk CmdType.SIMPLE ["cd", "/x"] []
        RedirType.RED_IN "f" RedirType.RED_OUT "g" RedirType.NONE
        CMD.null CMD.null) wQ7).2.waits = wQ7.waits :=
  C9_builtins fsFree "cd" ["/x"] [] RedirType.RED_IN "f" RedirType.RED_OUT "g"
    RedirType.NONE CMD.null CMD.null wQ7 (Or.inl rfl)

/-- Claim C1, amended: the status variable equals the decimal of the
returned status for every call whose dispatch completes the switch: it
always does when the root node is SIMPLE, SEP_AND, SEP_OR, SEP_END, NONE
or ERROR, and it does on the completing paths of PIPE (pipe, both forks
and both waits succeed), SEP_BG (the fork succeeds, with or without a
right operand) and SUBCMD (fork and wait succeed).  The null tree returns
0 and leaves the world, including the status variable, unchanged; and
every path that returns an errno early after a failed pipe, fork or
waitpid (five in PIPE, one in SEP_BG, two in SUBCMD) returns that errno
with the environment, hence the status variable, untouched. -/
theorem C1_status_updated :
    (∀ (fs : FS) (t : CmdType) (a : List String)
      (lv : List (String × String)) (ft : RedirType) (ffi : String)
      (tt0 : RedirType) (tfi : String) (et : RedirType) (l r : CMD)
      (w : World),
      (t = CmdType.SIMPLE ∨ t = CmdType.SEP_AND ∨ t = CmdType.SEP_OR ∨
        t = CmdType.SEP_END ∨ t = CmdType.NONE ∨ t = CmdType.ERROR) →
      envGet (process fs (CMD.mk t a lv ft ffi tt0 tfi et l r) w).2.env "?" =
        some (toString (process fs (CMD.mk t a lv ft ffi tt0 tfi et l r) w).1))
    ∧ (∀ (fs : FS) (a : List String) (lv : List (String × String))
      (ft : RedirType) (ffi : String) (tt0 : RedirType) (tfi : String)
      (et : RedirType) (l r : CMD) (w : World) (pidL : Nat)
      (coL : List OSEv) (pidR : Nat) (coR rest : List OSEv),
      w.oracle = OSEv.pipeEv none :: OSEv.forkEv (Except.ok pidL) coL ::
        OSEv.forkEv (Except.ok pidR) coR :: OSEv.waitREv none ::
        OSEv.waitREv none :: rest →
      envGet (process fs (CMD.mk CmdType.PIPE a lv ft ffi tt0 tfi et l r) w).2.env "?" =
        some (toString (process fs (CMD.mk CmdType.PIPE a lv ft ffi tt0 tfi et l r) w).1))
    ∧ (∀ (fs : FS) (a : List String) (lv : List (String × String))
      (ft : RedirType) (ffi : String) (tt0 : RedirType) (tfi : String)
      (et : RedirType) (l r : CMD) (w : World) (pid : Nat)
      (co rest : List OSEv),
      w.oracle = OSEv.forkEv (Except.ok pid) co :: rest →
      envGet (process fs (CMD.mk CmdType.SEP_BG a lv ft ffi tt0 tfi et l r) w).2.env "?" =
        some (toString (process fs (CMD.mk CmdType.SEP_BG a lv ft ffi tt0 tfi et l r) w).1))
    ∧ (∀ (fs : FS) (a : List String) (lv : List (String × String))
      (ft : RedirType) (ffi : String) (tt0 : RedirType) (tfi : String)
      (et : RedirType) (l r : CMD) (w : World) (pid : Nat)
      (co rest : List OSEv),
      w.oracle = OSEv.forkEv (Except.ok pid) co :: OSEv.waitREv none :: rest →
      envGet (process fs (CMD.mk CmdType.SUBCMD a lv ft ffi tt0 tfi et l r) w).2.env "?" =
        some (toString (process fs (CMD.mk CmdType.SUBCMD a lv ft ffi tt0 tfi et l r) w).1))
    ∧ (∀ (fs : FS) (a : List String) (lv : List (String × String))
      (ft : RedirType) (ffi : String) (tt0 : RedirType) (tfi : String)
      (et : RedirType) (l r : CMD) (w : World) (e : Nat) (rest : List OSEv),
      w.oracle = OSEv.pipeEv (some e) :: rest →
      (process fs (CMD.mk CmdType.PIPE a lv ft ffi tt0 tfi et l r) w).1 = e ∧
      (process fs (CMD.mk CmdType.PIPE a lv ft ffi tt0 tfi et l r) w).2.env = w.env)
    ∧ (∀ (fs : FS) (a : List String) (lv : List (String × String))
      (ft : RedirType) (ffi : String) (tt0 : RedirType) (tfi : String)
      (et : RedirType) (l r : CMD) (w : World) (e : Nat) (co rest : List OSEv),
      w.oracle = OSEv.pipeEv none :: OSEv.forkEv (Except.error e) co :: rest →
      (process fs (CMD.mk CmdType.PIPE a lv ft ffi tt0 tfi et l r) w).1 = e ∧
      (process fs (CMD.mk CmdType.PIPE a lv ft ffi tt0 tfi et l r) w).2.env = w.env)
    ∧ (∀ (fs : FS) (a : List String) (lv : List (String × String))
      (ft : RedirType) (ffi : String) (tt0 : RedirType) (tfi : String)
      (et : RedirType) (l r : CMD) (w : World) (pidL : Nat)
      (coL : List OSEv) (e : Nat) (co2 rest : List OSEv),
      w.oracle = OSEv.pipeEv none :: OSEv.forkEv (Except.ok pidL) coL ::
        OSEv.forkEv (Except.error e) co2 :: rest →
      (process fs (CMD.mk CmdType.PIPE a lv ft ffi tt0 tfi et l r) w).1 = e ∧
      (process fs (CMD.mk CmdType.PIPE a lv ft ffi tt0 tfi et l r) w).2.env = w.env)
    ∧ (∀ (fs : FS) (a : List String) (lv : List (String × String))
      (ft : RedirType) (ffi : String) (tt0 : RedirType) (tfi : String)
      (et : RedirType) (l r : CMD) (w : World) (pidL : Nat)
      (coL : List OSEv) (pidR : Nat) (coR : List OSEv) (e : Nat)
      (rest : List OSEv),
      w.oracle = OSEv.pipeEv none :: OSEv.forkEv (Except.ok pidL) coL ::
        OSEv.forkEv (Except.ok pidR) coR :: OSEv.waitREv (some e) :: rest →
      (process fs (CMD.mk CmdType.PIPE a lv ft ffi tt0 tfi et l r) w).1 = e ∧
      (process fs (CMD.mk CmdType.PIPE a lv ft ffi tt0 tfi et l r) w).2.env = w.env)
    ∧ (∀ (fs : FS) (a : List String) (lv : List (String × String))
      (ft : RedirType) (ffi : String) (tt0 : RedirType) (tfi : String)
      (et : RedirType) (l r : CMD) (w : World) (pidL : Nat)
      (coL : List OSEv) (pidR : Nat) (coR : List OSEv) (e : Nat)
      (rest : List OSEv),
      w.oracle = OSEv.pipeEv none :: OSEv.forkEv (Except.ok pidL) coL ::
        OSEv.forkEv (Except.ok pidR) coR :: OSEv.waitREv none ::
        OSEv.waitREv (some e) :: rest →
      (process fs (CMD.mk CmdType.PIPE a lv ft ffi tt0 tfi et l r) w).1 = e ∧
      (process fs (CMD.mk CmdType.PIPE a lv ft ffi tt0 tfi et l r) w).2.env = w.env)
    ∧ (∀ (fs : FS) (a : List String) (lv : List (String × String))
      (ft : RedirType) (ffi : String) (tt0 : RedirType) (tfi : String)
      (et : RedirType) (l r : CMD) (w : World) (e : Nat) (co rest : List OSEv),
      w.oracle = OSEv.forkEv (Except.error e) co :: rest →
      (process fs (CMD.mk CmdType.SEP_BG a lv ft ffi tt0 tfi et l r) w).1 = e ∧
      (process fs (CMD.mk CmdType.SEP_BG a lv ft ffi tt0 tfi et l r) w).2.env = w.env)
    ∧ (∀ (fs : FS) (a : List String) (lv : List (String × String))
      (ft : RedirType) (ffi : String) (tt0 : RedirType) (tfi : String)
      (et : RedirType) (l r : CMD) (w : World) (e : Nat) (co rest : List OSEv),
      w.oracle = OSEv.forkEv (Except.error e) co :: rest →
      (process fs (CMD.mk CmdType.SUBCMD a lv ft ffi tt0 tfi et l r) w).1 = e ∧
      (process fs (CMD.mk CmdType.SUBCMD a lv ft ffi tt0 tfi et l r) w).2.env = w.env)
    ∧ (∀ (fs : FS) (a : List String) (lv : List (String × String))
      (ft : RedirType) (ffi : String) (tt0 : RedirType) (tfi : String)
      (et : RedirType) (l r : CMD) (w : World) (pid : Nat)
      (co : List OSEv) (e : Nat) (rest : List OSEv),
      w.oracle = OSEv.forkEv (Except.ok pid) co :: OSEv.waitREv (some e) :: rest →
      (process fs (CMD.mk CmdType.SUBCMD a lv ft ffi tt0 tfi et l r) w).1 = e ∧
      (process fs (CMD.mk CmdType.SUBCMD a lv ft ffi tt0 tfi et l r) w).2.env = w.env)
    ∧ (∀ (fs : FS) (w : World), process fs CMD.null w = (0, w)) := by
  refine ⟨?_, ?_, ?_, ?_, ?_, ?_, ?_, ?_, ?_, ?_, ?_, ?_, ?_⟩
  · intro fs t a lv ft ffi tt0 tfi et l r w h
    rcases h with rfl | rfl | rfl | rfl | rfl | rfl
    · exact envGet_envSet ..
    · rcases hb : (process fs l w).1 == 0 <;>
        simp [process, hb, update_status, envGet_envSet]
    · rcases hb : (process fs l w).1 != 0 <;>
        simp [process, hb, update_status, envGet_envSet]
    · exact envGet_envSet ..
    · exact envGet_envSet ..
    · exact envGet_envSet ..
  · intro fs a lv ft ffi tt0 tfi et l r w pidL coL pidR coR rest ho
    simp [process, popPipe, popFork, popWaitR, ho, update_status, envGet_envSet]
  · intro fs a lv ft ffi tt0 tfi et l r w pid co rest ho
    have hf : popFork w = (Except.ok (pid, co), {w with oracle := rest}) := by
      simp [popFork, ho]
    cases r with
    | null =>
        rw [process_bg_null hf]
        exact envGet_envSet ..
    | mk t2 a2 lv2 ft2 ffi2 tt2 tfi2 et2 l2 r2 =>
        rw [process_bg_cont hf (by simp)]
        exact envGet_envSet ..
  · intro fs a lv ft ffi tt0 tfi et l r w pid co rest ho
    simp [process, popFork, popWaitR, ho, update_status, envGet_envSet]
  · intro fs a lv ft ffi tt0 tfi et l r w e rest ho
    simp [process, popPipe, ho, addDiag]
  · intro fs a lv ft ffi tt0 tfi et l r w e co rest ho
    simp [process, popPipe, popFork, ho, addDiag]
  · intro fs a lv ft ffi tt0 tfi et l r w pidL coL e co2 rest ho
    simp [process, popPipe, popFork, ho, addDiag]
  · intro fs a lv ft ffi tt0 tfi et l r w pidL coL pidR coR e rest ho
    simp [process, popPipe, popFork, popWaitR, ho, addDiag]
  · intro fs a lv ft ffi tt0 tfi et l r w pidL coL pidR coR e rest ho
    simp [process, popPipe, popFork, popWaitR, ho, addDiag]
  · intro fs a lv ft ffi tt0 tfi et l r w e co rest ho
    simp [process, popFork, ho, addDiag]
  · intro fs a lv ft ffi tt0 tfi et l r w e co rest ho
    simp [process, popFork, ho, addDiag]
  · intro fs a lv ft ffi tt0 tfi et l r w pid co e rest ho
    simp [process, popFork, popWaitR, ho, addDiag]
  · intro fs w
    rfl

/-- Claim C1, witness: concrete runs through each completing path update
the status variable to the decimal of the returned status (a SIMPLE
external command, a full pipeline, a backgrounded command, a subshell),
and concrete errno early returns (a failed pipe, a failed subshell wait)
return the errno leaving the environment untouched. -/
theorem C1_witness :
    (envGet (process fsNoop extCmd wExt5).2.env "?" =
      some (toString (process fsNoop extCmd wExt5).1))
    ∧ (envGet (process fsNoop pipeCmd wPipeOk).2.env "?" =
      some (toString (process fsNoop pipeCmd wPipeOk).1))
    ∧ (envGet (process fsNoop bgSimpleCmd wBG).2.env "?" =
      some (toString (process fsNoop bgSimpleCmd wBG).1))
    ∧ (envGet (process fsNoop subshellCmd wSubOk).2.env "?" =
      some (toString (process fsNoop subshellCmd wSubOk).1))
    ∧ ((process fsNoop pipeCmd wPipeFail).1 = 5 ∧
       (process fsNoop pipeCmd wPipeFail).2.env = wPipeFail.env)
    ∧ ((process fsNoop pipeCmd wPipeForkFail1).1 = 7 ∧
       (process fsNoop pipeCmd wPipeForkFail1).2.env = wPipeForkFail1.env)
    ∧ ((process fsNoop pipeCmd wPipeForkFail2).1 = 8 ∧
       (process fsNoop pipeCmd wPipeForkFail2).2.env = wPipeForkFail2.env)
    ∧ ((process fsNoop pipeCmd wPipeWaitFail1).1 = 9 ∧
       (process fsNoop pipeCmd wPipeWaitFail1).2.env = wPipeWaitFail1.env)
    ∧ ((process fsNoop pipeCmd wPipeWaitFail2).1 = 10 ∧
       (process fsNoop pipeCmd wPipeWaitFail2).2.env = wPipeWaitFail2.env)
    ∧ ((process fsNoop bgSimpleCmd wForkFail).1 = 3 ∧
       (process fsNoop bgSimpleCmd wForkFail).2.env = wForkFail.env)
    ∧ ((process fsNoop subshellCmd wForkFail).1 = 3 ∧
       (process fsNoop subshellCmd wForkFail).2.env = wForkFail.env)
    ∧ ((process fsNoop subshellCmd wSubWaitFail).1 = 6 ∧
       (process fsNoop subshellCmd wSubWaitFail).2.env = wSubWaitFail.env) :=
  ⟨C1_status_updated.1 fsNoop CmdType.SIMPLE ["/bin/prog"] [] RedirType.NONE ""
      RedirType.NONE "" RedirType.NONE CMD.null CMD.null wExt5 (Or.inl rfl),
   C1_status_updated.2.1 fsNoop [] [] RedirType.NONE "" RedirType.NONE ""
      RedirType.NONE extCmd extCmd wPipeOk 11 [] 12 [] [] rfl,
   C1_status_updated.2.2.1 fsNoop [] [] RedirType.NONE "" RedirType.NONE ""
      RedirType.NONE extCmd CMD.null wBG 8 bgChildOracle [] rfl,
   C1_status_updated.2.2.2.1 fsNoop [] [] RedirType.NONE "" RedirType.NONE ""
      RedirType.NONE extCmd CMD.null wSubOk 13 [] [] rfl,
   C1_status_updated.2.2.2.2.1 fsNoop [] [] RedirType.NONE "" RedirType.NONE ""
      RedirType.NONE extCmd extCmd wPipeFail 5 [] rfl,
   C1_status_updated.2.2.2.2.2.1 fsNoop [] [] RedirType.NONE "" RedirType.NONE ""
      RedirType.NONE extCmd extCmd wPipeForkFail1 7 [] [] rfl,
   C1_status_updated.2.2.2.2.2.2.1 fsNoop [] [] RedirType.NONE "" RedirType.NONE ""
      RedirType.NONE extCmd extCmd wPipeForkFail2 11 [] 8 [] [] rfl,
   C1_status_updated.2.2.2.2.2.2.2.1 fsNoop [] [] RedirType.NONE "" RedirType.NONE ""
      RedirType.NONE extCmd extCmd wPipeWaitFail1 11 [] 12 [] 9 [] rfl,
   C1_status_updated.2.2.2.2.2.2.2.2.1 fsNoop [] [] RedirType.NONE "" RedirType.NONE ""
      RedirType.NONE extCmd extCmd wPipeWaitFail2 11 [] 12 [] 10 [] rfl,
   C1_status_updated.2.2.2.2.2.2.2.2.2.1 fsNoop [] [] RedirType.NONE ""
      RedirType.NONE "" RedirType.NONE extCmd CMD.null wForkFail 3 [] [] rfl,
   C1_status_updated.2.2.2.2.2.2.2.2.2.2.1 fsNoop [] [] RedirType.NONE ""
      RedirType.NONE "" RedirType.NONE extCmd CMD.null wForkFail 3 [] [] rfl,
   C1_status_updated.2.2.2.2.2.2.2.2.2.2.2.1 fsNoop [] [] RedirType.NONE ""
      RedirType.NONE "" RedirType.NONE extCmd CMD.null wSubWaitFail 13 [] 6 [] rfl⟩

end ShellExec
